import Mathlib

/-!
Shallow embedding of the snapshot-aggregation core of the Dr2ndOp repository:
the two provider FHIR service classes in `src/cerner_fhir_service.py`
(CernerFHIRService) and `src/epic_fhir_service.py` (EpicFHIRService).
Python dicts with fixed key sets are embedded as structures whose fields are
`Option`-valued (absent key and JSON null both map to `none`); Python `or`
fallbacks are embedded by helpers that treat `none` and the empty string /
empty list as falsy, exactly as Python truthiness does.
-/

namespace Dr2ndOp

/-- The double-quote character, written by code point to keep it out of
string literals. -/
def dquoteChar : Char := Char.ofNat 34

/-- The single-quote character, written by code point. -/
def squoteChar : Char := Char.ofNat 39

/-- Python truthiness of an optional string: `None` and the empty string are
falsy. -/
def pyTruthyS : Option String → Bool
  | some s => s ≠ ""
  | none => false

/-- Python truthiness of an optional integer: `None` and `0` are falsy. -/
def pyTruthyI : Option Int → Bool
  | some n => n ≠ 0
  | none => false

/-- Python `x or d` where `x` is an optional string and `d` a string:
falls back to `d` when `x` is `None` or empty. -/
def pyOrStr (x : Option String) (d : String) : String :=
  match x with
  | some s => if s = "" then d else s
  | none => d

/-- Python `x or y` for two optional strings (used for `unit or code`). -/
def pyOrOpt (x y : Option String) : Option String :=
  match x with
  | some s => if s = "" then y else x
  | none => y

/-- Python `(x or "")` for an optional string. -/
def pyStrD (x : Option String) : String := x.getD ""

/-- Python `lst or [d]`: an absent or empty list falls back to `[d]`. -/
def pyOrList {α : Type} (x : Option (List α)) (d : α) : List α :=
  match x with
  | some l => if l.isEmpty then [d] else l
  | none => [d]

/-- Python `str.strip()`: drop leading and trailing whitespace. Implemented
over the character list so it evaluates by kernel reduction. -/
def pyStrip (s : String) : String :=
  String.mk (((s.toList.dropWhile Char.isWhitespace).reverse.dropWhile
    Char.isWhitespace).reverse)

/-- Python `s.replace(":", "")`: drop every colon. -/
def removeColons (s : String) : String :=
  String.mk (s.toList.filter (fun c => c ≠ ':'))

/-- Whether `p` is a prefix of `s`, over character lists (models Python
`s.startswith(p)`). -/
def strStartsWith (s p : String) : Bool :=
  p.toList.isPrefixOf s.toList

/-! ### Scope normalization

Embeds `CernerFHIRService._normalize_scope` (src/cerner_fhir_service.py
lines 81-92): strip, drop a literal `CERNER_SCOPE=` prefix, turn commas into
spaces, collapse whitespace runs to a single space, strip one matching pair
of surrounding quotes. -/

/-- Chars after the first occurrence of `c` (models Python
`s.split(sep, 1)[1]`, only reached when the separator is present). -/
def afterFirstChar (c : Char) : List Char → List Char
  | [] => []
  | x :: rest => if x = c then rest else afterFirstChar c rest

/-- Replace every maximal whitespace run by one space, as
`re.sub(r"\s+", " ", s)` does. The Boolean records whether the previous
character was whitespace. -/
def collapseWsAux : List Char → Bool → List Char
  | [], _ => []
  | c :: rest, prevWs =>
    if c.isWhitespace then
      if prevWs then collapseWsAux rest true
      else ' ' :: collapseWsAux rest true
    else c :: collapseWsAux rest false

/-- Strip one matching pair of surrounding quote characters, then strip
whitespace, as the final step of `_normalize_scope` does. -/
def stripSurroundingQuotes (s : String) : String :=
  let l := s.toList
  match l.head?, l.getLast? with
  | some c, some lastC =>
    if (c = dquoteChar ∧ lastC = dquoteChar) ∨ (c = squoteChar ∧ lastC = squoteChar) then
      pyStrip (String.mk ((l.drop 1).dropLast))
    else s
  | _, _ => s

/-- Embeds `CernerFHIRService._normalize_scope`. -/
def normalize_scope (s : String) : String :=
  if s = "" then ""
  else
    let s1 := pyStrip s
    let s2 := if strStartsWith s1 "CERNER_SCOPE=" then
        pyStrip (String.mk (afterFirstChar '=' s1.toList))
      else s1
    let s3 := String.mk (collapseWsAux (s2.toList.map (fun c => if c = ',' then ' ' else c)) false)
    stripSurroundingQuotes s3

/-! ### HTML stripping

Embeds `_strip_html` (identical in both services:
src/cerner_fhir_service.py lines 300-302, src/epic_fhir_service.py
lines 221-223): `re.sub(r"<[^>]*>", "", s or "").strip()`. A `<` that is
never followed by `>` is left in place, since the regex then has no match. -/

/-- One pass over the characters; the second argument buffers (reversed) the
characters of a tag opened by `<` that has not yet seen its closing `>`, so
an unclosed tag is emitted verbatim at the end. -/
def stripTagsAux : List Char → Option (List Char) → List Char
  | [], none => []
  | [], some buf => buf.reverse
  | c :: rest, none =>
    if c = '<' then stripTagsAux rest (some [c])
    else c :: stripTagsAux rest none
  | c :: rest, some buf =>
    if c = '>' then stripTagsAux rest none
    else stripTagsAux rest (some (c :: buf))

/-- Embeds `_strip_html` of both service classes. -/
def strip_html (s : Option String) : String :=
  pyStrip (String.mk (stripTagsAux (pyStrD s).toList none))

/-! ### Date handling

Embeds the `parser.isoparse(issued).strftime("%m/%d/%Y")` reformatting used
by both `_summarize_observation` methods, and the `datetime` /
`relativedelta` arithmetic used to build query lower bounds. The
`isoparse` model below follows dateutil's isoparser: an ASCII check (the
decorator encodes to ASCII; failure is a UnicodeEncodeError, a ValueError
subclass), a common calendar-date parse with fallback to the
week-date/ordinal-date parse, an arbitrary single-character date-time
separator (the parser is built with sep=None), lenient Python `int()`
slices (surrounding whitespace, sign, underscores between digits), time
and time-zone validation, the 24:00 day rollover, and the final `datetime`
range validation. Every rejected input means `isoparse` raised (ValueError
or OverflowError), which nothing in the calling code catches. -/

/-- Zero-pad a natural number to two digits (strftime `%m` / `%d`). -/
def pad2 (n : Nat) : String :=
  if n < 10 then "0" ++ toString n else toString n

/-- Zero-pad a natural number to four digits (strftime `%Y`). -/
def pad4 (n : Nat) : String :=
  if n < 10 then "000" ++ toString n
  else if n < 100 then "00" ++ toString n
  else if n < 1000 then "0" ++ toString n
  else toString n

/-- Zero-pad a natural number to six digits (isoformat microseconds). -/
def pad6 (n : Nat) : String :=
  if n < 10 then "00000" ++ toString n
  else if n < 100 then "0000" ++ toString n
  else if n < 1000 then "000" ++ toString n
  else if n < 10000 then "00" ++ toString n
  else if n < 100000 then "0" ++ toString n
  else toString n

/-- Value of a list of decimal digit characters. -/
def digitsToNat (l : List Char) : Nat :=
  l.foldl (fun acc c => acc * 10 + (c.toNat - 48)) 0

/-- Drop leading and trailing whitespace from a character list. -/
def stripWsChars (l : List Char) : List Char :=
  ((l.dropWhile Char.isWhitespace).reverse.dropWhile Char.isWhitespace).reverse

/-- Digits of a Python integer literal body: a nonempty digit sequence
with single underscores allowed strictly between digits. The Boolean
records whether the previous character was a digit. -/
def pyDigitsVal : List Char → Bool → Nat → Option Nat
  | [], prevDigit, acc => if prevDigit then some acc else none
  | c :: rest, prevDigit, acc =>
    if c.isDigit then pyDigitsVal rest true (acc * 10 + (c.toNat - 48))
    else if c = '_' ∧ prevDigit then pyDigitsVal rest false acc
    else none

/-- Python `int()` of a string slice: strip surrounding whitespace, allow
an optional sign, then digits with underscores between them; anything else
raises ValueError (modeled as `none`). -/
def pyInt (l : List Char) : Option Int :=
  match stripWsChars l with
  | [] => none
  | c :: rest =>
    if c = '+' then (pyDigitsVal rest false 0).map Int.ofNat
    else if c = '-' then (pyDigitsVal rest false 0).map (fun n => -(Int.ofNat n))
    else (pyDigitsVal (c :: rest) false 0).map Int.ofNat

/-- Gregorian leap-year test, as `calendar`/`datetime` use. -/
def isLeapYear (y : Nat) : Bool :=
  y % 4 = 0 && (y % 100 ≠ 0 || y % 400 = 0)

/-- `calendar.isleap` for an arbitrary (possibly nonpositive) year, with
Python `%` semantics (Euclidean remainder). -/
def isLeapInt (y : Int) : Bool :=
  y % 4 = 0 && (y % 100 ≠ 0 || y % 400 = 0)

/-- Length of a month (1-12) in a leap or common year. -/
def monthLength (leap : Bool) (m : Nat) : Nat :=
  match m with
  | 1 => 31
  | 2 => if leap then 29 else 28
  | 3 => 31
  | 4 => 30
  | 5 => 31
  | 6 => 30
  | 7 => 31
  | 8 => 31
  | 9 => 30
  | 10 => 31
  | 11 => 30
  | 12 => 31
  | _ => 0

/-- Days in the given month of the given year. -/
def daysInMonth (y m : Nat) : Nat := monthLength (isLeapYear y) m

/-- Days in the months strictly before month `m`. -/
def daysBeforeMonth (leap : Bool) (m : Nat) : Nat :=
  (List.range (m - 1)).foldl (fun acc i => acc + monthLength leap (i + 1)) 0

/-- Proleptic-Gregorian ordinal of a date, with 0001-01-01 as day 1
(CPython `date.toordinal`). -/
def toOrdinal (y m d : Nat) : Nat :=
  let n := y - 1
  365 * n + n / 4 - n / 100 + n / 400 + daysBeforeMonth (isLeapYear y) m + d

/-- The ordinal of 9999-12-31, the largest representable `date`. -/
def maxDateOrdinal : Nat := toOrdinal 9999 12 31

/-- Month and day from a 0-based day-of-year, scanning the month lengths
(the first argument is fuel over the 12 months). -/
def monthDayFromDoyAux (leap : Bool) : Nat → Nat → Nat → Nat × Nat
  | 0, m, rem => (m + 1, rem + 1)
  | fuel + 1, m, rem =>
    let ml := monthLength leap (m + 1)
    if rem < ml then (m + 1, rem + 1)
    else monthDayFromDoyAux leap fuel (m + 1) (rem - ml)

/-- Month and day from a 0-based day-of-year. -/
def monthDayFromDoy (leap : Bool) (doy : Nat) : Nat × Nat :=
  monthDayFromDoyAux leap 12 0 doy

/-- Date from a proleptic-Gregorian ordinal (CPython `date.fromordinal`):
split off completed 400-, 100-, 4- and 1-year cycles, then read the month
off the day-of-year. -/
def fromOrdinal (n : Nat) : Nat × Nat × Nat :=
  let n0 := n - 1
  let n400 := n0 / 146097
  let r1 := n0 % 146097
  let n100 := r1 / 36524
  let r2 := r1 % 36524
  let n4 := r2 / 1461
  let r3 := r2 % 1461
  let n1 := r3 / 365
  let r4 := r3 % 365
  let year := n400 * 400 + n100 * 100 + n4 * 4 + n1 + 1
  if n1 = 4 ∨ n100 = 4 then (year - 1, 12, 31)
  else
    let md := monthDayFromDoy (isLeapYear year) r4
    (year, md.1, md.2)

/-- The `date(year, 1, 1) + timedelta(days=ordinal_day - 1)` step of the
ordinal-date branch; `none` models the ValueError raised by `date` on an
out-of-range year. The ordinal day itself is range-checked by the caller,
as in the source. -/
def ordinalDateOf (year od : Int) : Option (Int × Int × Int) :=
  if year < 1 ∨ year > 9999 then none
  else
    let md := monthDayFromDoy (isLeapYear year.toNat) (od - 1).toNat
    some (year, Int.ofNat md.1, Int.ofNat md.2)

/-- dateutil `isoparser._calculate_weekdate`: week in 1..53 and day in
1..7, week 1 anchored at the week of January 4, with `none` for the
ValueError/OverflowError of an invalid year or an out-of-range result. -/
def calculateWeekdate (year weekno dayno : Int) : Option (Int × Int × Int) :=
  if weekno ≤ 0 ∨ weekno ≥ 54 then none
  else if dayno ≤ 0 ∨ dayno ≥ 8 then none
  else if year < 1 ∨ year > 9999 then none
  else
    let jan4 := toOrdinal year.toNat 1 4
    let isoWd := (jan4 - 1) % 7 + 1
    let week1 : Int := Int.ofNat jan4 - (Int.ofNat isoWd - 1)
    let resOrd : Int := week1 + (weekno - 1) * 7 + (dayno - 1)
    if resOrd < 1 ∨ resOrd > Int.ofNat maxDateOrdinal then none
    else
      let ymd := fromOrdinal resOrd.toNat
      some (Int.ofNat ymd.1, Int.ofNat ymd.2.1, Int.ofNat ymd.2.2)

/-- dateutil `isoparser._parse_isodate_common`: `YYYY`, `YYYY-MM`,
`YYYY-MM-DD` or `YYYYMMDD`, returning the (unvalidated) components and the
position after the date. `none` models a raised ValueError. -/
def parseIsodateCommon (l : List Char) : Option ((Int × Int × Int) × Nat) :=
  let len := l.length
  if len < 4 then none
  else
    match pyInt (l.take 4) with
    | none => none
    | some year =>
      if len ≤ 4 then some ((year, 1, 1), 4)
      else
        let hasSep : Bool := decide (l.getD 4 ' ' = '-')
        let pos := if hasSep then 5 else 4
        if len - pos < 2 then none
        else
          match pyInt ((l.drop pos).take 2) with
          | none => none
          | some month =>
            let pos := pos + 2
            if len ≤ pos then some ((year, month, 1), pos)
            else
              if hasSep ∧ ¬(l.getD pos ' ' = '-') then none
              else
                let pos := if hasSep then pos + 1 else pos
                if len - pos < 2 then none
                else
                  match pyInt ((l.drop pos).take 2) with
                  | none => none
                  | some day => some ((year, month, day), pos + 2)

/-- dateutil `isoparser._parse_isodate_uncommon`: ISO week dates
`YYYY[-]Www[[-]D]` and ordinal dates `YYYY[-]DDD`. -/
def parseIsodateUncommon (l : List Char) : Option ((Int × Int × Int) × Nat) :=
  let len := l.length
  if len < 4 then none
  else
    match pyInt (l.take 4) with
    | none => none
    | some year =>
      let hasSep : Bool := decide (l.getD 4 ' ' = '-')
      let pos := if hasSep then 5 else 4
      if l.getD pos ' ' = 'W' then
        let pos := pos + 1
        match pyInt ((l.drop pos).take 2) with
        | none => none
        | some weekno =>
          let pos := pos + 2
          if len > pos then
            if decide (l.getD pos ' ' = '-') ≠ hasSep then none
            else
              let pos := if hasSep then pos + 1 else pos
              match pyInt ((l.drop pos).take 1) with
              | none => none
              | some dayno =>
                (calculateWeekdate year weekno dayno).map (fun d => (d, pos + 1))
          else (calculateWeekdate year weekno 1).map (fun d => (d, pos))
      else
        if len - pos < 3 then none
        else
          match pyInt ((l.drop pos).take 3) with
          | none => none
          | some od =>
            if od < 1 ∨ od > 365 + (if isLeapInt year then 1 else 0) then none
            else (ordinalDateOf year od).map (fun d => (d, pos + 3))

/-- dateutil `isoparser._parse_isodate`: the common form, falling back to
the uncommon form when the common parse raises. -/
def parseIsodate (l : List Char) : Option ((Int × Int × Int) × Nat) :=
  match parseIsodateCommon l with
  | some r => some r
  | none => parseIsodateUncommon l

/-- dateutil `isoparser._parse_tzstr`: `Z`/`z`, or a signed `HH`, `HHMM`
or `HH:MM` offset of 3, 5 or 6 characters; hours over 23 or minutes over
59 are rejected unless the whole offset is zero, and `tzoffset` rejects a
total magnitude of a day or more. Only validity matters downstream (the
tzinfo never changes the stored date fields `%m/%d/%Y` prints). -/
def parseTzValid (l : List Char) : Bool :=
  if l = ['Z'] ∨ l = ['z'] then true
  else if l.length = 3 ∨ l.length = 5 ∨ l.length = 6 then
    match l with
    | [] => false
    | c :: rest =>
      if c = '+' ∨ c = '-' then
        match pyInt (rest.take 2) with
        | none => false
        | some hours =>
          let minutesOpt : Option Int :=
            if l.length = 3 then some 0
            else if l.getD 3 ' ' = ':' then pyInt (l.drop 4)
            else pyInt (l.drop 3)
          match minutesOpt with
          | none => false
          | some minutes =>
            if hours = 0 ∧ minutes = 0 then true
            else if minutes > 59 then false
            else if hours > 23 then false
            else if (hours * 60 + minutes) * 60 ≥ 86400 ∨
                (hours * 60 + minutes) * 60 ≤ -86400 then false
            else true
      else false
  else false

/-- Hour, minute, second, microseconds. -/
def setTimeComp (comps : Int × Int × Int × Int) (idx : Nat) (v : Int) :
    Int × Int × Int × Int :=
  match idx, comps with
  | 0, (_, m, s, us) => (v, m, s, us)
  | 1, (h, _, s, us) => (h, v, s, us)
  | 2, (h, m, _, us) => (h, m, v, us)
  | _, c => c

/-- Microseconds from the fraction digits: the first six digits, scaled. -/
def fracMicros (digits : List Char) : Int :=
  let ds := digits.take 6
  Int.ofNat (digitsToNat ds) * Int.ofNat (10 ^ (6 - ds.length))

/-- The component loop of dateutil `isoparser._parse_isotime`: up to six
iterations (components 0-5); a sign or Z at the current position hands the
rest to the time-zone parser; components 0-2 are two-character `int()`
slices with an optional colon skipped after each when the string is
colon-separated; component 3 is an optional `[.,]digits` fraction. -/
def parseIsotimeAux (tl : List Char) (hasSep : Bool) :
    Nat → Nat → Nat → Int × Int × Int × Int →
    Option ((Int × Int × Int × Int) × Nat)
  | 0, _, pos, comps => some (comps, pos)
  | fuel + 1, comp, pos, comps =>
    if pos ≥ tl.length then some (comps, pos)
    else
      let c := tl.getD pos ' '
      if c = '-' ∨ c = '+' ∨ c = 'Z' ∨ c = 'z' then
        if parseTzValid (tl.drop pos) then some (comps, tl.length) else none
      else if comp < 3 then
        match pyInt ((tl.drop pos).take 2) with
        | none => none
        | some v =>
          let comps := setTimeComp comps comp v
          let pos := pos + 2
          let pos := if hasSep ∧ pos < tl.length ∧ tl.getD pos ' ' = ':' then
              pos + 1
            else pos
          parseIsotimeAux tl hasSep fuel (comp + 1) pos comps
      else if comp = 3 then
        if (c = '.' ∨ c = ',') ∧ (tl.getD (pos + 1) ' ').isDigit then
          let digits := (tl.drop (pos + 1)).takeWhile Char.isDigit
          parseIsotimeAux tl hasSep fuel (comp + 1) (pos + 1 + digits.length)
            (comps.1, comps.2.1, comps.2.2.1, fracMicros digits)
        else parseIsotimeAux tl hasSep fuel (comp + 1) pos comps
      else parseIsotimeAux tl hasSep fuel (comp + 1) pos comps

/-- dateutil `isoparser._parse_isotime`: at least two characters, the loop
above, no unused trailing characters, and hour 24 only at exactly
24:00:00.000. -/
def parseIsotime (tl : List Char) : Option (Int × Int × Int × Int) :=
  if tl.length < 2 then none
  else
    let hasSep : Bool := decide (tl.length ≥ 3) && decide (tl.getD 2 ' ' = ':')
    match parseIsotimeAux tl hasSep 6 0 0 (0, 0, 0, 0) with
    | none => none
    | some (comps, posF) =>
      if posF < tl.length then none
      else
        if comps.1 = 24 ∧ (comps.2.1 ≠ 0 ∨ comps.2.2.1 ≠ 0 ∨ comps.2.2.2 ≠ 0)
        then none
        else some comps

/-- dateutil `parser.isoparse`, returning the (year, month, day) that
`strftime` would print: ASCII check, date parse, any single-character
separator before the time part, time parse, the `datetime` field
validation, and the 24:00 rollover to the next day. `none` models a raised
exception (ValueError, UnicodeEncodeError or OverflowError), which the
callers do not catch. -/
def isoparse (s : String) : Option (Nat × Nat × Nat) :=
  let l := s.toList
  if l.any (fun c => c.toNat ≥ 128) then none
  else
    match parseIsodate l with
    | none => none
    | some ((y, mo, d), pos) =>
      let timeRes : Option (Int × Int × Int × Int) :=
        if pos < l.length then parseIsotime (l.drop (pos + 1))
        else some (0, 0, 0, 0)
      match timeRes with
      | none => none
      | some (h, mi, sec, _us) =>
        let was24 := h = 24
        let h := if was24 then 0 else h
        if y < 1 ∨ y > 9999 ∨ mo < 1 ∨ mo > 12 then none
        else if d < 1 ∨ d > Int.ofNat (daysInMonth y.toNat mo.toNat) then none
        else if h < 0 ∨ h > 23 ∨ mi < 0 ∨ mi > 59 ∨ sec < 0 ∨ sec > 59 then none
        else
          if was24 then
            let o := toOrdinal y.toNat mo.toNat d.toNat + 1
            if o > maxDateOrdinal then none
            else some (fromOrdinal o)
          else some (y.toNat, mo.toNat, d.toNat)

/-- The modeled message of the uncaught ValueError `isoparse` raises on an
unparseable issued string. -/
def isoparseValueError : String :=
  "ValueError: unparseable issued timestamp (dateutil isoparse)"

/-- Reformat an issued timestamp to `MM/DD/YYYY` via `isoparse` and
`strftime`. The source wraps this in
`except (parser.ParserError, TypeError)` intending to keep the original
string on failure, but `isoparse` raises plain ValueError on strings it
cannot parse (`ParserError` is raised only by `parser.parse`, and
TypeError only for non-string input), so for string inputs the
keep-original branch is dead and a parse failure propagates as an error.
All claim scenarios use four-digit years, where platforms agree on the
zero-padded `%Y` rendering used here. -/
def formatIssuedDate (issued : String) : Except String String :=
  match isoparse issued with
  | some (y, mo, d) => Except.ok (pad2 mo ++ "/" ++ pad2 d ++ "/" ++ pad4 y)
  | none => Except.error isoparseValueError

/-- A Python `datetime` value as produced by `datetime.now()`. -/
structure PyDateTime where
  year : Nat
  month : Nat
  day : Nat
  hour : Nat
  minute : Nat
  second : Nat
  microsecond : Nat
deriving DecidableEq

/-- Embeds `now - relativedelta(years=k)`: the year is decreased and
February 29 falls back to February 28 when the target year is not leap. -/
def dtMinusYears (d : PyDateTime) (k : Nat) : PyDateTime :=
  let y := d.year - k
  let dd := if d.month = 2 && d.day = 29 && !(isLeapYear y) then 28 else d.day
  ⟨y, d.month, dd, d.hour, d.minute, d.second, d.microsecond⟩

/-- Embeds `datetime.isoformat()`: `YYYY-MM-DDTHH:MM:SS[.ffffff]`. -/
def PyDateTime.isoformat (d : PyDateTime) : String :=
  pad4 d.year ++ "-" ++ pad2 d.month ++ "-" ++ pad2 d.day ++ "T" ++
    pad2 d.hour ++ ":" ++ pad2 d.minute ++ ":" ++ pad2 d.second ++
    (if d.microsecond = 0 then "" else "." ++ pad6 d.microsecond)

/-! ### Raw resource shapes

Structures for the parts of each FHIR resource the summarizers read.
Every field is `Option`-valued: `none` covers both an absent key and a JSON
null, matching what Python `dict.get` returns in either case. List elements
are likewise `Option`-valued so a null element inside an array is
representable. -/

/-- One element of a `coding` array: only `display` is read. -/
structure Coding where
  display : Option String
deriving DecidableEq

/-- A CodeableConcept: `text` and a `coding` array. -/
structure CodeCC where
  text : Option String
  coding : Option (List (Option Coding))
deriving DecidableEq

/-- A narrative: only `div` is read. -/
structure Narrative where
  div : Option String
deriving DecidableEq

/-- A reference carrying only a `display` (used for `basedOn`,
`medicationReference`, `generalPractitioner` elements). -/
structure RefDisplay where
  display : Option String
deriving DecidableEq

/-- A `valueQuantity`: numeric value, human unit, coding-system code. -/
structure ValueQuantity where
  value : Option Int
  unit : Option String
  code : Option String
deriving DecidableEq

/-- An Observation resource as read by `_summarize_observation`
(the Cerner variant never reads `basedOn`). -/
structure ObsRes where
  basedOn : Option (List (Option RefDisplay))
  code : Option CodeCC
  valueQuantity : Option ValueQuantity
  issued : Option String
deriving DecidableEq

/-- An AllergyIntolerance resource as read by `_summarize_allergy`. -/
structure AllergyRes where
  code : Option CodeCC
  text : Option Narrative
deriving DecidableEq

/-- A Condition resource as read by `_summarize_condition`. -/
structure ConditionRes where
  code : Option CodeCC
deriving DecidableEq

/-- One element of a `dosageInstruction` / `dosage` array. -/
structure DosageObj where
  text : Option String
deriving DecidableEq

/-- A MedicationRequest resource as read by Cerner
`_summarize_medication`. -/
structure MedReqRes where
  medicationCodeableConcept : Option CodeCC
  dosageInstruction : Option (List (Option DosageObj))
deriving DecidableEq

/-- A MedicationStatement resource as read by Epic
`_summarize_medication`. -/
structure MedStmtRes where
  medicationReference : Option RefDisplay
  dosage : Option (List (Option DosageObj))
deriving DecidableEq

/-- A `name` element of a Patient resource. -/
structure HumanName where
  text : Option String
  given : Option (List (Option String))
  family : Option String
deriving DecidableEq

/-- A Patient resource as read by `_patient_summary`. -/
structure PatientRes where
  name : Option (List (Option HumanName))
  birthDate : Option String
  gender : Option String
  generalPractitioner : Option (List (Option RefDisplay))
deriving DecidableEq

/-! ### Summary records (the canonical per-category shapes) -/

/-- Cerner observation summary (src/cerner_fhir_service.py lines 347-353). -/
structure ObsSummaryC where
  code_text : Option String
  value : Option Int
  unit : Option String
  issued : Option String
  text : String
deriving DecidableEq

/-- Epic observation summary (src/epic_fhir_service.py lines 268-275);
Epic additionally records the `basedOn` order display. -/
structure ObsSummaryE where
  based_on : Option String
  code_text : Option String
  value : Option Int
  unit : Option String
  issued : Option String
  text : String
deriving DecidableEq

/-- Allergy summary: a single rendered-text label. -/
structure AllergySummary where
  text : String
deriving DecidableEq

/-- Condition summary: a single rendered-text label. -/
structure ConditionSummary where
  text : String
deriving DecidableEq

/-- Medication summary: name and optional dosage text. -/
structure MedSummary where
  name : String
  dosage : Option String
deriving DecidableEq

/-- Patient summary (identical shape in both services). -/
structure PatientSummary where
  id : String
  name : String
  dob : Option String
  gender : Option String
  general_practitioner : Option String
deriving DecidableEq

/-! ### Summarizers -/

/-- The `if issued:` reformatting step shared by both
`_summarize_observation` methods: `None` and the empty string are left
untouched (falsy, so the parse is skipped); any other string is
reformatted, with a parse failure propagating as the uncaught ValueError
(see `formatIssuedDate`). -/
def reformatIssued (issued : Option String) : Except String (Option String) :=
  match issued with
  | none => Except.ok none
  | some s =>
    if s = "" then Except.ok (some s)
    else (formatIssuedDate s).map some

/-- The `(' ' + unit) if unit else ''` fragment of the rendered text. -/
def unitFragment (u : Option String) : String :=
  match u with
  | some s => if s = "" then "" else " " ++ s
  | none => ""

/-- Embeds `CernerFHIRService._summarize_observation`
(src/cerner_fhir_service.py lines 328-353). An unparseable non-null issued
string makes the whole call raise (see `formatIssuedDate`). -/
def cernerSummarizeObservation (obs : ObsRes) : Except String ObsSummaryC :=
  let code := obs.code.getD ⟨none, none⟩
  let code_text := code.text
  let vq := obs.valueQuantity.getD ⟨none, none, none⟩
  let val := vq.value
  let unit := pyOrOpt vq.unit vq.code
  match reformatIssued obs.issued with
  | Except.error e => Except.error e
  | Except.ok issued =>
    let t0 := pyStrip (removeColons (pyStrD code_text))
    let text :=
      match val with
      | some v =>
        pyStrip (t0 ++ " " ++ toString v ++ unitFragment unit ++ " " ++ pyStrD issued)
      | none => pyStrip (t0 ++ " " ++ pyStrD issued)
    Except.ok ⟨code_text, val, unit, issued, text⟩

/-- Embeds `EpicFHIRService._summarize_observation`
(src/epic_fhir_service.py lines 249-275). The rendered text starts with
`f-string {based_on or empty}: {code text}` so it always carries a colon
separator, even when no `basedOn` display is present. -/
def epicSummarizeObservation (obs : ObsRes) : Except String ObsSummaryE :=
  let based_on := ((pyOrList obs.basedOn (some ⟨none⟩)).headD (some ⟨none⟩)).getD ⟨none⟩
    |>.display
  let code := obs.code.getD ⟨none, none⟩
  let code_text := code.text
  let vq := obs.valueQuantity.getD ⟨none, none, none⟩
  let val := vq.value
  let unit := pyOrOpt vq.unit vq.code
  match reformatIssued obs.issued with
  | Except.error e => Except.error e
  | Except.ok issued =>
    let t0 := pyStrip (pyStrD based_on ++ ": " ++ removeColons (pyStrD code_text))
    let text :=
      match val with
      | some v =>
        pyStrip (t0 ++ " " ++ toString v ++ unitFragment unit ++ " " ++ pyStrD issued)
      | none => pyStrip (t0 ++ " " ++ pyStrD issued)
    Except.ok ⟨based_on, code_text, val, unit, issued, text⟩

/-- Embeds `CernerFHIRService._summarize_allergy`
(src/cerner_fhir_service.py lines 355-364). The first coding element is
guarded with `or` against a null element, so the function is total. -/
def cernerSummarizeAllergy (ai : AllergyRes) : AllergySummary :=
  let code := ai.code.getD ⟨none, none⟩
  let code_text := code.text
  let coding := code.coding.getD []
  let display : Option String :=
    match coding with
    | [] => none
    | c0 :: _ => (c0.getD ⟨none⟩).display
  let narrative_text : Option String := some (strip_html ((ai.text.getD ⟨none⟩).div))
  ⟨pyOrStr code_text (pyOrStr display (pyOrStr narrative_text
      "Allergy/Intolerance (unspecified)"))⟩

/-- Embeds `EpicFHIRService._summarize_allergy`
(src/epic_fhir_service.py lines 277-285). Unlike the Cerner variant, the
first coding element is read with a bare `coding[0].get("display")`, so a
null element raises an AttributeError, embedded here as `Except.error`. -/
def epicSummarizeAllergy (ai : AllergyRes) : Except String AllergySummary :=
  let code := ai.code.getD ⟨none, none⟩
  let code_text := code.text
  let coding := pyOrList code.coding (some ⟨none⟩)
  match coding.head? with
  | none => Except.error "IndexError: list index out of range"
  | some none => Except.error "AttributeError: NoneType object has no attribute get"
  | some (some c0) =>
    let display := c0.display
    let narrative_text : Option String := some (strip_html ((ai.text.getD ⟨none⟩).div))
    Except.ok ⟨pyOrStr code_text (pyOrStr display (pyOrStr narrative_text
        "Allergy/Intolerance (unspecified)"))⟩

/-- Embeds `_summarize_condition`, which is textually identical in the two
services (src/cerner_fhir_service.py lines 366-372,
src/epic_fhir_service.py lines 287-292). -/
def summarizeCondition (cond : ConditionRes) : ConditionSummary :=
  let code := cond.code.getD ⟨none, none⟩
  let label0 := code.text
  let codingL := code.coding.getD []
  let label : Option String :=
    if pyTruthyS label0 = false ∧ codingL ≠ [] then
      ((codingL.headD none).getD ⟨none⟩).display
    else label0
  ⟨pyOrStr label "Condition (unspecified)"⟩

/-- Embeds `CernerFHIRService._summarize_medication`
(src/cerner_fhir_service.py lines 374-380). -/
def cernerSummarizeMedication (mr : MedReqRes) : MedSummary :=
  let med := (mr.medicationCodeableConcept.getD ⟨none, none⟩).text
  let di := ((pyOrList mr.dosageInstruction (some ⟨none⟩)).headD (some ⟨none⟩)).getD ⟨none⟩
  ⟨pyOrStr med "Medication (unspecified)", di.text⟩

/-- Embeds `EpicFHIRService._summarize_medication`
(src/epic_fhir_service.py lines 294-302). -/
def epicSummarizeMedication (ms : MedStmtRes) : MedSummary :=
  let med_name := (ms.medicationReference.getD ⟨none⟩).display
  let dosage := ((pyOrList ms.dosage (some ⟨none⟩)).headD (some ⟨none⟩)).getD ⟨none⟩
  ⟨pyOrStr med_name "Medication (unspecified)", dosage.text⟩

/-- Embeds `_patient_summary`, textually identical in the two services
(src/cerner_fhir_service.py lines 304-326, src/epic_fhir_service.py
lines 225-247). Zero Patient results return `ok none` (not an error). The
first `name` element is read with a bare `name.get(...)`, so a null element
there raises an AttributeError, embedded as `Except.error`. -/
def patientSummaryOf (patient_id : String) (pats : List PatientRes) :
    Except String (Option PatientSummary) :=
  match pats with
  | [] => Except.ok none
  | pat :: _ =>
    match (pyOrList pat.name (some ⟨none, none, none⟩)).headD (some ⟨none, none, none⟩) with
    | none => Except.error "AttributeError: NoneType object has no attribute get"
    | some nm =>
      let g0 : Option String := (pyOrList nm.given (some "")).headD (some "")
      let joined := pyStrip (String.intercalate " "
        (([g0, nm.family].filterMap id).filter (fun s => s ≠ "")))
      let full_name := pyOrStr nm.text joined
      let gps := pat.generalPractitioner.getD []
      let gp_display : Option String :=
        match gps with
        | [] => none
        | g :: _ => (g.getD ⟨none⟩).display
      Except.ok (some ⟨patient_id, full_name, pat.birthDate, pat.gender, gp_display⟩)

/-! ### Deduplication

Both snapshot methods deduplicate each category with the same loop shape:
a growing `seen` set of keys; an element is appended exactly when its key is
not yet in `seen`. The observation loop additionally drops records whose
`issued` is null (and only adds the text to `seen` when the record is
kept). -/

/-- The generic dedup loop over a key function, with the keys seen so far
(src/cerner_fhir_service.py lines 242-248, 262-268, 281-289;
src/epic_fhir_service.py lines 136-142, 153-159, 172-180). -/
def dedupeLoop {α κ : Type} [DecidableEq κ] (key : α → κ) :
    List α → List κ → List α
  | [], _ => []
  | x :: xs, seen =>
    if key x ∈ seen then dedupeLoop key xs seen
    else x :: dedupeLoop key xs (key x :: seen)

/-- Deduplication from an empty `seen` set, preserving first-seen order. -/
def dedupe {α κ : Type} [DecidableEq κ] (key : α → κ) (l : List α) : List α :=
  dedupeLoop key l []

/-- The observation dedup loop of both snapshot methods
(src/cerner_fhir_service.py lines 221-227, src/epic_fhir_service.py
lines 116-122): skip records whose text was seen; of the rest keep only
those with a non-null `issued`, adding their text to `seen`. -/
def obsDedupLoop {α : Type} (txt : α → String) (iss : α → Option String) :
    List α → List String → List α
  | [], _ => []
  | o :: os, seen =>
    if txt o ∈ seen then obsDedupLoop txt iss os seen
    else if iss o ≠ none then o :: obsDedupLoop txt iss os (txt o :: seen)
    else obsDedupLoop txt iss os seen

/-! ### Category pipelines (normalize, cap, dedup), as sequenced inside each
`snapshot` method. Cerner slices allergies and conditions with `[:10]`
BEFORE its dedup loop; Epic has no post-normalization cap at all. -/

/-- Cerner observations: summarize every fetched resource (a single
unparseable issued string aborts the whole list comprehension) then the
issued-filtering dedup loop. -/
def cernerObsPipeline (raws : List ObsRes) : Except String (List ObsSummaryC) :=
  (raws.mapM cernerSummarizeObservation).map
    (fun summaries => obsDedupLoop (fun o => o.text) (fun o => o.issued) summaries [])

/-- Cerner allergies: summarize, cap at 10 with a slice, then dedup
(src/cerner_fhir_service.py lines 239-248). -/
def cernerAllergyPipeline (raws : List AllergyRes) : List AllergySummary :=
  dedupe (fun a => a.text) ((raws.map cernerSummarizeAllergy).take 10)

/-- Cerner conditions: summarize, cap at 10 with a slice, then dedup
(src/cerner_fhir_service.py lines 259-268). -/
def cernerConditionPipeline (raws : List ConditionRes) : List ConditionSummary :=
  dedupe (fun c => c.text) ((raws.map summarizeCondition).take 10)

/-- Cerner medications: summarize then dedup on the (name, dosage) pair
(src/cerner_fhir_service.py lines 279-289). -/
def cernerMedPipeline (raws : List MedReqRes) : List MedSummary :=
  dedupe (fun m => (m.name, m.dosage)) (raws.map cernerSummarizeMedication)

/-- Epic observations: summarize every fetched resource (a single
unparseable issued string aborts the whole list comprehension) then the
issued-filtering dedup loop. -/
def epicObsPipeline (raws : List ObsRes) : Except String (List ObsSummaryE) :=
  (raws.mapM epicSummarizeObservation).map
    (fun summaries => obsDedupLoop (fun o => o.text) (fun o => o.issued) summaries [])

/-- Epic allergies: fallible summarization (see `epicSummarizeAllergy`)
then dedup; no cap (src/epic_fhir_service.py lines 134-142). -/
def epicAllergyPipeline (raws : List AllergyRes) :
    Except String (List AllergySummary) :=
  (raws.mapM epicSummarizeAllergy).map (dedupe (fun a => a.text))

/-- Epic conditions: summarize then dedup; no cap
(src/epic_fhir_service.py lines 151-159). -/
def epicConditionPipeline (raws : List ConditionRes) : List ConditionSummary :=
  dedupe (fun c => c.text) (raws.map summarizeCondition)

/-- Epic medications: summarize then dedup on the (name, dosage) pair
(src/epic_fhir_service.py lines 170-180). -/
def epicMedPipeline (raws : List MedStmtRes) : List MedSummary :=
  dedupe (fun m => (m.name, m.dosage)) (raws.map epicSummarizeMedication)

/-! ### Snapshot assembly

The snapshot methods are embedded over the fetched resource lists: network
fetching itself is outside the shallow embedding, so the `snapshot_core`
functions take the per-category fetch results as inputs and perform the
normalization/dedup/assembly the Python method performs on them. -/

/-- The aggregate snapshot value returned by `CernerFHIRService.snapshot`. -/
structure CernerSnapshot where
  patient : Option PatientSummary
  observations : List ObsSummaryC
  allergies : List AllergySummary
  conditions : List ConditionSummary
  medications : List MedSummary
deriving DecidableEq

/-- The aggregate snapshot value returned by `EpicFHIRService.snapshot`. -/
structure EpicSnapshot where
  patient : Option PatientSummary
  observations : List ObsSummaryE
  allergies : List AllergySummary
  conditions : List ConditionSummary
  medications : List MedSummary
deriving DecidableEq

/-- Embeds the post-fetch body of `CernerFHIRService.snapshot`
(src/cerner_fhir_service.py lines 185-297): patient summary first (zero
results give a `none` patient, not an error), then each category pipeline,
assembled into the result dict. -/
def cernerSnapshotCore (patient_id : String) (pats : List PatientRes)
    (obsRaw : List ObsRes) (allergyRaw : List AllergyRes)
    (condRaw : List ConditionRes) (medRaw : List MedReqRes) :
    Except String CernerSnapshot :=
  match patientSummaryOf patient_id pats with
  | Except.error e => Except.error e
  | Except.ok p =>
    match cernerObsPipeline obsRaw with
    | Except.error e => Except.error e
    | Except.ok os =>
      Except.ok ⟨p, os, cernerAllergyPipeline allergyRaw,
        cernerConditionPipeline condRaw, cernerMedPipeline medRaw⟩

/-- Embeds the post-fetch body of `EpicFHIRService.snapshot`
(src/epic_fhir_service.py lines 79-188). The allergy stage is fallible
because `epicSummarizeAllergy` is. -/
def epicSnapshotCore (patient_id : String) (pats : List PatientRes)
    (obsRaw : List ObsRes) (allergyRaw : List AllergyRes)
    (condRaw : List ConditionRes) (medRaw : List MedStmtRes) :
    Except String EpicSnapshot :=
  match patientSummaryOf patient_id pats with
  | Except.error e => Except.error e
  | Except.ok p =>
    match epicObsPipeline obsRaw with
    | Except.error e => Except.error e
    | Except.ok os =>
      match epicAllergyPipeline allergyRaw with
      | Except.error e => Except.error e
      | Except.ok al =>
        Except.ok ⟨p, os, al, epicConditionPipeline condRaw, epicMedPipeline medRaw⟩

/-! ### Query construction

The search filters each `snapshot` method passes to
`fhir.resources(...).search(...)`, embedded as ordered parameter lists.
The bounded/unbounded pagination toggle changes only `.limit(10).fetch()`
versus `.fetch_all()`, never the filters, so it is not part of these
definitions. -/

/-- Observation filters, identical in both services
(src/cerner_fhir_service.py lines 211-217, src/epic_fhir_service.py
lines 105-112): patient, laboratory category, date at least one year back. -/
def observationQuery (pid : String) (now : PyDateTime) : List (String × String) :=
  [("patient", pid), ("category", "laboratory"),
   ("date", "ge" ++ (dtMinusYears now 1).isoformat)]

/-- AllergyIntolerance filters, identical in both services
(src/cerner_fhir_service.py lines 231-238, src/epic_fhir_service.py
lines 126-133): patient, active clinical status, lastUpdated at least three
years back. -/
def allergyQuery (pid : String) (now : PyDateTime) : List (String × String) :=
  [("patient", pid), ("clinicalStatus", "active"),
   ("lastUpdated", "ge" ++ (dtMinusYears now 3).isoformat)]

/-- Cerner Condition filters (src/cerner_fhir_service.py lines 251-258):
patient, encounter-diagnosis category, active clinical status, lastUpdated
at least three years back. -/
def cernerConditionQuery (pid : String) (now : PyDateTime) : List (String × String) :=
  [("patient", pid), ("category", "encounter-diagnosis"),
   ("clinicalStatus", "active"),
   ("lastUpdated", "ge" ++ (dtMinusYears now 3).isoformat)]

/-- Epic Condition filters (src/epic_fhir_service.py lines 145-150):
patient and the medical-history category only; no clinical-status and no
lastUpdated filter appears in the call. -/
def epicConditionQuery (pid : String) : List (String × String) :=
  [("patient", pid), ("category", "medical-history")]

/-- Cerner MedicationRequest filters (src/cerner_fhir_service.py
lines 271-278). -/
def cernerMedQuery (pid : String) : List (String × String) :=
  [("patient", pid), ("status", "active"), ("intent", "order")]

/-- Epic MedicationStatement filters (src/epic_fhir_service.py
lines 162-169). -/
def epicMedQuery (pid : String) : List (String × String) :=
  [("patient", pid)]

/-- The resource queries one `CernerFHIRService.snapshot` call issues, in
order. -/
def cernerSnapshotQueries (pid : String) (now : PyDateTime) :
    List (String × List (String × String)) :=
  [("Patient", [("_id", pid)]),
   ("Observation", observationQuery pid now),
   ("AllergyIntolerance", allergyQuery pid now),
   ("Condition", cernerConditionQuery pid now),
   ("MedicationRequest", cernerMedQuery pid)]

/-- The resource queries one `EpicFHIRService.snapshot` call issues, in
order. -/
def epicSnapshotQueries (pid : String) (now : PyDateTime) :
    List (String × List (String × String)) :=
  [("Patient", [("_id", pid)]),
   ("Observation", observationQuery pid now),
   ("AllergyIntolerance", allergyQuery pid now),
   ("Condition", epicConditionQuery pid),
   ("MedicationStatement", epicMedQuery pid)]

/-! ### Token manager (Cerner) and assertion builders

`CernerFHIRService._get_access_token` caches the token and its expiry on
the instance; the embedding passes that mutable pair explicitly and counts
network requests, with the token endpoint's behavior supplied as an
oracle value. `EpicFHIRService.get_access_token` keeps no cache and always
POSTs once. -/

/-- Static configuration of a `CernerFHIRService` instance (the fields the
token and assertion code reads). -/
structure CernerConfig where
  client_id : String
  token_url : String
  scope : String
  auth_method : String
  client_secret : Option String
  jwk_kid : Option String
  jwt_alg : String
deriving DecidableEq

/-- Static configuration of an `EpicFHIRService` instance. -/
structure EpicConfig where
  client_id : String
  token_url : String
  jwk_kid : Option String
  jwt_alg : String
deriving DecidableEq

/-- The mutable token cache: `self._access_token` and `self._token_exp`. -/
structure TokenCache where
  access_token : Option String
  token_exp : Option Int
deriving DecidableEq

/-- The token dict the operation returns: the cached fast path fills all
four keys; a raw server response carries at least `access_token` and
`expires_in` (other keys unmodeled as `none`). -/
structure TokenDict where
  access_token : String
  token_type : Option String
  expires_in : Int
  scope : Option String
deriving DecidableEq

/-- What the token endpoint answers to one POST: a non-2xx HTTP reply, or a
JSON body with an optional `access_token` and an `expires_in`. -/
inductive ServerReply where
  | httpError (status : Nat) (body : String)
  | okJson (access_token : Option String) (expires_in : Int)
deriving DecidableEq

/-- Result of one `_get_access_token` call: the returned dict or raised
error, the cache it leaves behind, and how many POSTs to the token
endpoint it made. -/
structure TokenOutcome where
  result : Except String TokenDict
  cache : TokenCache
  networkCalls : Nat

/-- The safety margin the cached-token check subtracts from the expiry
(the literal 15 in src/cerner_fhir_service.py line 133). -/
def tokenSafetyMargin : Int := 15

/-- The reuse fast-path guard of `_get_access_token` (line 133):
`self._access_token and self._token_exp and not force and
now < self._token_exp - 15`, with Python truthiness on the cache fields. -/
def tokenFastPathOk (cache : TokenCache) (force : Bool) (now : Int) : Prop :=
  pyTruthyS cache.access_token = true ∧ pyTruthyI cache.token_exp = true ∧
    force = false ∧ now < cache.token_exp.getD 0 - tokenSafetyMargin

instance (cache : TokenCache) (force : Bool) (now : Int) :
    Decidable (tokenFastPathOk cache force now) := by
  unfold tokenFastPathOk
  exact inferInstance

/-- Embeds `CernerFHIRService._get_access_token`
(src/cerner_fhir_service.py lines 131-173). `now` is the clock read at
entry and `nowAfter` the second clock read when storing the new expiry;
`server` is what one POST to the token endpoint would return. Both auth
methods POST exactly once, so the request payload is not modeled. -/
def cernerGetAccessToken (cfg : CernerConfig) (cache : TokenCache)
    (force : Bool) (now nowAfter : Int) (server : ServerReply) : TokenOutcome :=
  if tokenFastPathOk cache force now then
    { result := Except.ok ⟨cache.access_token.getD "", some "Bearer",
        max 0 (cache.token_exp.getD 0 - now), some cfg.scope⟩,
      cache := cache, networkCalls := 0 }
  else
    if normalize_scope cfg.scope = "" then
      { result := Except.error
          "Refusing to request token with empty scope (after normalization).",
        cache := cache, networkCalls := 0 }
    else
      match server with
      | ServerReply.httpError status body =>
        { result := Except.error
            ("Token request failed (" ++ toString status ++ "): " ++ body),
          cache := cache, networkCalls := 1 }
      | ServerReply.okJson tokOpt expIn =>
        if pyTruthyS tokOpt = false then
          { result := Except.error "Token response missing access_token",
            cache := { access_token := tokOpt, token_exp := cache.token_exp },
            networkCalls := 1 }
        else
          { result := Except.ok ⟨tokOpt.getD "", none, expIn, none⟩,
            cache := { access_token := tokOpt,
                       token_exp := some (nowAfter + expIn) },
            networkCalls := 1 }

/-- Embeds `EpicFHIRService.get_access_token` (src/epic_fhir_service.py
lines 52-71): no cache, no `force` parameter; every call builds an
assertion and POSTs exactly once. -/
def epicGetAccessToken (server : ServerReply) : Except String TokenDict × Nat :=
  match server with
  | ServerReply.httpError status body =>
    (Except.error ("Token request failed (" ++ toString status ++ "): " ++ body), 1)
  | ServerReply.okJson tokOpt expIn =>
    ((match tokOpt with
      | some t => Except.ok ⟨t, none, expIn, none⟩
      | none => Except.ok ⟨"", none, expIn, none⟩), 1)

/-- The claims of a signed client-assertion JWT. -/
structure JwtClaims where
  iss : String
  sub : String
  aud : String
  jti : String
  iat : Int
  nbf : Int
  exp : Int
deriving DecidableEq

/-- The JWT header fields the builders set. -/
structure JwtHeaders where
  alg : String
  typ : String
  kid : Option String
deriving DecidableEq

/-- Embeds `CernerFHIRService._build_client_assertion`
(src/cerner_fhir_service.py lines 115-129). `now` is the clock read and
`jtiFresh` the `str(uuid.uuid4())` value of this build; randomness of the
UUID is modeled by supplying the fresh value as an input. -/
def cernerBuildClientAssertion (cfg : CernerConfig) (now : Int)
    (jtiFresh : String) : JwtClaims × JwtHeaders :=
  (⟨cfg.client_id, cfg.client_id, cfg.token_url, jtiFresh, now, now, now + 180⟩,
   ⟨cfg.jwt_alg, "JWT", cfg.jwk_kid⟩)

/-- Embeds `EpicFHIRService._build_backend_jwt`
(src/epic_fhir_service.py lines 198-217); same claim set as the Cerner
builder. -/
def epicBuildBackendJwt (cfg : EpicConfig) (now : Int)
    (jtiFresh : String) : JwtClaims × JwtHeaders :=
  (⟨cfg.client_id, cfg.client_id, cfg.token_url, jtiFresh, now, now, now + 180⟩,
   ⟨cfg.jwt_alg, "JWT", cfg.jwk_kid⟩)

/-! ### Lemmas about the dedup loops -/

/-- The dedup loop output is a sublist of its input: kept records stay at
their original relative positions. -/
theorem dedupeLoop_sublist {α κ : Type} [DecidableEq κ] (key : α → κ) :
    ∀ (l : List α) (seen : List κ), (dedupeLoop key l seen).Sublist l
  | [], _ => List.Sublist.refl []
  | x :: xs, seen => by
    unfold dedupeLoop
    by_cases h : key x ∈ seen
    · rw [if_pos h]
      exact (dedupeLoop_sublist key xs seen).cons x
    · rw [if_neg h]
      exact (dedupeLoop_sublist key xs (key x :: seen)).cons₂ x

/-- The dedup loop only looks at the `seen` argument through membership. -/
theorem dedupeLoop_congr_seen {α κ : Type} [DecidableEq κ] (key : α → κ) :
    ∀ (l : List α) (s1 s2 : List κ), (∀ c, c ∈ s1 ↔ c ∈ s2) →
      dedupeLoop key l s1 = dedupeLoop key l s2
  | [], _, _, _ => rfl
  | x :: xs, s1, s2, h => by
    unfold dedupeLoop
    by_cases hx : key x ∈ s1
    · rw [if_pos hx, if_pos ((h (key x)).mp hx)]
      exact dedupeLoop_congr_seen key xs s1 s2 h
    · rw [if_neg hx, if_neg (fun hc => hx ((h (key x)).mpr hc))]
      have := dedupeLoop_congr_seen key xs (key x :: s1) (key x :: s2)
        (fun c => by simp only [List.mem_cons]; exact or_congr Iff.rfl (h c))
      rw [this]

/-- A seen key that no input record carries can be removed from `seen`. -/
theorem dedupeLoop_drop_seen {α κ : Type} [DecidableEq κ] (key : α → κ) (k : κ) :
    ∀ (l : List α) (seen : List κ), (∀ y ∈ l, key y ≠ k) →
      dedupeLoop key l (k :: seen) = dedupeLoop key l seen
  | [], _, _ => rfl
  | x :: xs, seen, h => by
    unfold dedupeLoop
    have hxk : key x ≠ k := h x (List.mem_cons_self x xs)
    have hrest : ∀ y ∈ xs, key y ≠ k := fun y hy => h y (List.mem_cons_of_mem x hy)
    by_cases hx : key x ∈ seen
    · rw [if_pos (List.mem_cons_of_mem k hx), if_pos hx]
      exact dedupeLoop_drop_seen key k xs seen hrest
    · have hnot : key x ∉ (k :: seen) := by
        intro hmem
        rcases List.mem_cons.mp hmem with h1 | h2
        · exact hxk h1
        · exact hx h2
      rw [if_neg hnot, if_neg hx]
      have hswap : dedupeLoop key xs (key x :: k :: seen)
          = dedupeLoop key xs (k :: key x :: seen) :=
        dedupeLoop_congr_seen key xs _ _ (fun c => by
          simp only [List.mem_cons]
          constructor <;> (intro hc; tauto))
      rw [hswap, dedupeLoop_drop_seen key k xs (key x :: seen) hrest]

/-- Records whose key is already in `seen` can be filtered out of the input
without changing the output. -/
theorem dedupeLoop_filter_seen {α κ : Type} [DecidableEq κ] (key : α → κ) (k : κ) :
    ∀ (l : List α) (seen : List κ), k ∈ seen →
      dedupeLoop key (l.filter (fun y => decide (key y ≠ k))) seen
        = dedupeLoop key l seen
  | [], _, _ => rfl
  | x :: xs, seen, hk => by
    by_cases hx : key x = k
    · have hp : ¬(decide (key x ≠ k) = true) := by simp [hx]
      rw [List.filter_cons, if_neg hp]
      conv_rhs => unfold dedupeLoop
      rw [if_pos (hx ▸ hk)]
      exact dedupeLoop_filter_seen key k xs seen hk
    · have hp : decide (key x ≠ k) = true := by simp [hx]
      rw [List.filter_cons, if_pos hp]
      unfold dedupeLoop
      by_cases hxs : key x ∈ seen
      · rw [if_pos hxs, if_pos hxs]
        exact dedupeLoop_filter_seen key k xs seen hk
      · rw [if_neg hxs, if_neg hxs,
          dedupeLoop_filter_seen key k xs (key x :: seen) (List.mem_cons_of_mem _ hk)]

/-- First-occurrence characterization of `dedupe`: the head is kept and the
tail is deduplicated after dropping every later record with the head's
key. -/
theorem dedupe_cons_eq {α κ : Type} [DecidableEq κ] (key : α → κ) (x : α)
    (xs : List α) :
    dedupe key (x :: xs)
      = x :: dedupe key (xs.filter (fun y => decide (key y ≠ key x))) := by
  unfold dedupe
  conv_lhs => unfold dedupeLoop
  rw [if_neg (List.not_mem_nil (key x))]
  have h1 : dedupeLoop key (xs.filter (fun y => decide (key y ≠ key x))) [key x]
      = dedupeLoop key xs [key x] :=
    dedupeLoop_filter_seen key (key x) xs [key x] (List.mem_singleton.mpr rfl)
  have h2 : dedupeLoop key (xs.filter (fun y => decide (key y ≠ key x))) (key x :: [])
      = dedupeLoop key (xs.filter (fun y => decide (key y ≠ key x))) [] :=
    dedupeLoop_drop_seen key (key x) _ [] (fun y hy => by
      have := List.of_mem_filter hy
      exact of_decide_eq_true this)
  rw [← h1, h2]

/-- Every record the observation dedup loop keeps has a non-null
`issued`. -/
theorem obsDedupLoop_issued {α : Type} (txt : α → String) (iss : α → Option String) :
    ∀ (l : List α) (seen : List String) (o : α),
      o ∈ obsDedupLoop txt iss l seen → iss o ≠ none
  | [], _, o => by intro h; cases h
  | x :: xs, seen, o => by
    unfold obsDedupLoop
    by_cases h1 : txt x ∈ seen
    · rw [if_pos h1]
      exact obsDedupLoop_issued txt iss xs seen o
    · rw [if_neg h1]
      by_cases h2 : iss x ≠ none
      · rw [if_pos h2]
        intro hmem
        rcases List.mem_cons.mp hmem with h3 | h3
        · rw [h3]; exact h2
        · exact obsDedupLoop_issued txt iss xs (txt x :: seen) o h3
      · rw [if_neg h2]
        exact obsDedupLoop_issued txt iss xs seen o

/-- The observation dedup loop output is a sublist of its input. -/
theorem obsDedupLoop_sublist {α : Type} (txt : α → String) (iss : α → Option String) :
    ∀ (l : List α) (seen : List String), (obsDedupLoop txt iss l seen).Sublist l
  | [], _ => List.Sublist.refl []
  | x :: xs, seen => by
    unfold obsDedupLoop
    by_cases h1 : txt x ∈ seen
    · rw [if_pos h1]
      exact (obsDedupLoop_sublist txt iss xs seen).cons x
    · rw [if_neg h1]
      by_cases h2 : iss x ≠ none
      · rw [if_pos h2]
        exact (obsDedupLoop_sublist txt iss xs (txt x :: seen)).cons₂ x
      · rw [if_neg h2]
        exact (obsDedupLoop_sublist txt iss xs seen).cons x

/-- A record with a non-null `issued` whose text collides with no other
input record (and is not already seen) is kept by the observation dedup
loop. -/
theorem obsDedupLoop_keeps {α : Type} (txt : α → String) (iss : α → Option String) :
    ∀ (l : List α) (seen : List String) (o : α),
      o ∈ l → iss o ≠ none → txt o ∉ seen →
      (∀ p ∈ l, txt p = txt o → p = o) →
      o ∈ obsDedupLoop txt iss l seen
  | [], _, o => by intro h; cases h
  | x :: xs, seen, o => by
    intro hmem hiss hseen huniq
    unfold obsDedupLoop
    by_cases hxo : x = o
    · subst hxo
      rw [if_neg hseen, if_pos hiss]
      exact List.mem_cons_self x _
    · have hoxs : o ∈ xs := by
        rcases List.mem_cons.mp hmem with h1 | h1
        · exact absurd h1.symm hxo
        · exact h1
      have huniq2 : ∀ p ∈ xs, txt p = txt o → p = o :=
        fun p hp => huniq p (List.mem_cons_of_mem x hp)
      have htxtne : txt x ≠ txt o := by
        intro heq
        exact hxo (huniq x (List.mem_cons_self x xs) heq)
      by_cases h1 : txt x ∈ seen
      · rw [if_pos h1]
        exact obsDedupLoop_keeps txt iss xs seen o hoxs hiss hseen huniq2
      · rw [if_neg h1]
        by_cases h2 : iss x ≠ none
        · rw [if_pos h2]
          have hseen2 : txt o ∉ (txt x :: seen) := by
            intro hc
            rcases List.mem_cons.mp hc with h3 | h3
            · exact htxtne h3.symm
            · exact hseen h3
          exact List.mem_cons_of_mem x
            (obsDedupLoop_keeps txt iss xs (txt x :: seen) o hoxs hiss hseen2 huniq2)
        · rw [if_neg h2]
          exact obsDedupLoop_keeps txt iss xs seen o hoxs hiss hseen huniq2

/-- A nonempty fallback keeps `pyOrStr` nonempty. -/
theorem pyOrStr_ne_empty (x : Option String) (d : String) (h : d ≠ "") :
    pyOrStr x d ≠ "" := by
  cases x with
  | none => simpa [pyOrStr] using h
  | some s =>
    by_cases hs : s = ""
    · simpa [pyOrStr, hs] using h
    · simp [pyOrStr, hs]

/-! ### Claim theorems -/

/-- The Observation of spec scenario C3: code text Glucose, value 95 with
unit mg/dL, issued 2024-03-01T00:00:00Z, nothing else populated. -/
def glucoseObs : ObsRes :=
  ⟨none, some ⟨some "Glucose", none⟩, some ⟨some 95, some "mg/dL", none⟩,
   some "2024-03-01T00:00:00Z"⟩

/-- The rendered text of a Cerner observation summarization result, when
it returned one. -/
def cernerObsText (e : Except String ObsSummaryC) : Option String :=
  match e with
  | Except.ok o => some o.text
  | Except.error _ => none

/-- The rendered text of an Epic observation summarization result, when it
returned one. -/
def epicObsText (e : Except String ObsSummaryE) : Option String :=
  match e with
  | Except.ok o => some o.text
  | Except.error _ => none

/-- C3 counterexample: on the scenario input, the Epic observation
normalizer does NOT produce the claimed rendered text, because its f-string
always prepends the based-on label and a colon-space separator. -/
theorem C3_counterexample :
    epicObsText (epicSummarizeObservation glucoseObs)
      ≠ some "Glucose 95 mg/dL 03/01/2024" := by
  decide

/-- C3 (amended): the Cerner observation normalizer renders the scenario
input exactly as claimed, while the Epic normalizer renders it with a
leading colon-space coming from the absent based-on label. -/
theorem C3_observation_rendered_text :
    cernerObsText (cernerSummarizeObservation glucoseObs)
      = some "Glucose 95 mg/dL 03/01/2024" ∧
    epicObsText (epicSummarizeObservation glucoseObs)
      = some ": Glucose 95 mg/dL 03/01/2024" := by
  constructor <;> rfl

/-- The repeated Condition of spec scenario C2. -/
def dupCondition : ConditionRes := ⟨some ⟨some "Hypertension", none⟩⟩

/-- A Condition with a chosen distinct code text. -/
def namedCondition (s : String) : ConditionRes := ⟨some ⟨some s, none⟩⟩

/-- Twelve raw Condition resources of which exactly the first three share
identical rendered text and all others are distinct. -/
def twelveConditions : List ConditionRes :=
  [dupCondition, dupCondition, dupCondition,
   namedCondition "Asthma", namedCondition "Diabetes",
   namedCondition "Anemia", namedCondition "Migraine",
   namedCondition "Obesity", namedCondition "Arthritis",
   namedCondition "Psoriasis", namedCondition "Glaucoma",
   namedCondition "Epilepsy"]

/-- C2 counterexample: on twelve raw Conditions with three sharing one
rendered text, neither service produces 9 entries: Cerner slices to 10
BEFORE deduplicating (yielding 8) and Epic applies no cap (three identical
texts collapse to one, yielding 10). -/
theorem C2_counterexample :
    (cernerConditionPipeline twelveConditions).length ≠ 9 ∧
    (epicConditionPipeline twelveConditions).length ≠ 9 := by
  constructor <;> decide

/-- C2 (amended): the Cerner service applies its fixed cap of 10 before
deduplication, so the scenario input yields 8 entries and the distinct
records sliced away by the cap (here Epilepsy, in position 12) are lost
even though the output is under the cap; the Epic service applies no cap
and yields 10 entries, retaining that record. The output never exceeds 10
entries in the Cerner service. -/
theorem C2_cap_before_dedup :
    (cernerConditionPipeline twelveConditions).length = 8 ∧
    (epicConditionPipeline twelveConditions).length = 10 ∧
    (⟨"Epilepsy"⟩ : ConditionSummary) ∉ cernerConditionPipeline twelveConditions ∧
    (⟨"Epilepsy"⟩ : ConditionSummary) ∈ epicConditionPipeline twelveConditions ∧
    ∀ raws : List ConditionRes, (cernerConditionPipeline raws).length ≤ 10 := by
  refine ⟨by decide, by decide, by decide, by decide, ?_⟩
  intro raws
  have h1 := (dedupeLoop_sublist (fun c : ConditionSummary => c.text)
    ((raws.map summarizeCondition).take 10) []).length_le
  exact le_trans h1 (List.length_take_le 10 _)

/-- C4 counterexample: the Epic Condition query carries no active
clinical-status filter (and, per `C4_query_filters`, no lastUpdated
filter either). -/
theorem C4_counterexample :
    ("clinicalStatus", "active") ∉ epicConditionQuery "12345" := by
  decide

/-- C4 (amended): AllergyIntolerance queries of both services and the
Cerner Condition query carry the patient-id filter, the active
clinical-status filter, and a lastUpdated lower bound of now minus three
years; the Epic Condition query instead carries only the patient id and
the medical-history category. -/
theorem C4_query_filters : ∀ (pid : String) (now : PyDateTime),
    (("patient", pid) ∈ allergyQuery pid now ∧
     ("clinicalStatus", "active") ∈ allergyQuery pid now ∧
     ("lastUpdated", "ge" ++ (dtMinusYears now 3).isoformat) ∈ allergyQuery pid now) ∧
    (("patient", pid) ∈ cernerConditionQuery pid now ∧
     ("clinicalStatus", "active") ∈ cernerConditionQuery pid now ∧
     ("lastUpdated", "ge" ++ (dtMinusYears now 3).isoformat) ∈ cernerConditionQuery pid now) ∧
    epicConditionQuery pid = [("patient", pid), ("category", "medical-history")] ∧
    ("AllergyIntolerance", allergyQuery pid now) ∈ cernerSnapshotQueries pid now ∧
    ("Condition", cernerConditionQuery pid now) ∈ cernerSnapshotQueries pid now ∧
    ("AllergyIntolerance", allergyQuery pid now) ∈ epicSnapshotQueries pid now ∧
    ("Condition", epicConditionQuery pid) ∈ epicSnapshotQueries pid now := by
  intro pid now
  refine ⟨⟨?_, ?_, ?_⟩, ⟨?_, ?_, ?_⟩, rfl, ?_, ?_, ?_, ?_⟩ <;>
    simp [allergyQuery, cernerConditionQuery, cernerSnapshotQueries, epicSnapshotQueries]

/-- The fixed claim set both assertion builders produce: issuer and subject
are the client id, the audience is the token endpoint, issued-at and
not-before are the current time, the jti is the freshly generated
identifier, and the expiry is exactly 180 seconds after issuance, within
the 300-second limit. -/
def assertionClaimsOk (b : JwtClaims) (client_id token_url : String)
    (now : Int) (j : String) : Prop :=
  b.iss = client_id ∧ b.sub = client_id ∧ b.aud = token_url ∧ b.jti = j ∧
    b.iat = now ∧ b.nbf = now ∧ b.exp = now + 180 ∧ b.exp - b.iat = 180 ∧
    (180 : Int) ≤ 300

/-- C8: both assertion builders produce exactly the claimed claim set, the
jti equals the freshly generated identifier of the build (so two builds
with distinct fresh identifiers carry distinct jti values), and the key id
is embedded in the header exactly when configured. -/
theorem C8_assertion_claims : ∀ (ccfg : CernerConfig) (ecfg : EpicConfig)
    (now : Int) (j j1 j2 : String),
    assertionClaimsOk (cernerBuildClientAssertion ccfg now j).1
      ccfg.client_id ccfg.token_url now j ∧
    assertionClaimsOk (epicBuildBackendJwt ecfg now j).1
      ecfg.client_id ecfg.token_url now j ∧
    (j1 ≠ j2 → (cernerBuildClientAssertion ccfg now j1).1.jti
      ≠ (cernerBuildClientAssertion ccfg now j2).1.jti) ∧
    (j1 ≠ j2 → (epicBuildBackendJwt ecfg now j1).1.jti
      ≠ (epicBuildBackendJwt ecfg now j2).1.jti) ∧
    (cernerBuildClientAssertion ccfg now j).2.kid = ccfg.jwk_kid ∧
    (epicBuildBackendJwt ecfg now j).2.kid = ecfg.jwk_kid := by
  intro ccfg ecfg now j j1 j2
  refine ⟨⟨rfl, rfl, rfl, rfl, rfl, rfl, rfl,
      show now + 180 - now = 180 by omega, by norm_num⟩,
    ⟨rfl, rfl, rfl, rfl, rfl, rfl, rfl,
      show now + 180 - now = 180 by omega, by norm_num⟩,
    fun h => h, fun h => h, rfl, rfl⟩

/-- C8 witness: a concrete instantiation showing two builds with distinct
fresh identifiers produce distinct jti claims. -/
theorem C8_witness :
    (cernerBuildClientAssertion
        ⟨"cid", "https://token", "system/Patient.read", "private_key_jwt",
         none, none, "RS384"⟩ 1700000000 "jti-one").1.jti
      ≠ (cernerBuildClientAssertion
        ⟨"cid", "https://token", "system/Patient.read", "private_key_jwt",
         none, none, "RS384"⟩ 1700000000 "jti-two").1.jti :=
  (C8_assertion_claims
    ⟨"cid", "https://token", "system/Patient.read", "private_key_jwt",
     none, none, "RS384"⟩
    ⟨"cid", "https://token", none, "RS384"⟩
    1700000000 "jti-one" "jti-one" "jti-two").2.2.1 (by decide)

/-- C9: deduplication preserves first-seen order: the empty list is fixed,
the head of any input is kept at its position and later records with the
head's key are dropped from the rest, the output is a sublist of the input
(so every kept record keeps its original relative position), and on the
spec's triple R1, R2 (a duplicate of R1), R3 the output is [R1, R3]. -/
theorem C9_dedupe_first_seen_order :
    ∀ {α κ : Type} [DecidableEq κ] (key : α → κ) (x : α) (xs : List α),
    dedupe key ([] : List α) = [] ∧
    dedupe key (x :: xs)
      = x :: dedupe key (xs.filter (fun y => decide (key y ≠ key x))) ∧
    (dedupe key (x :: xs)).Sublist (x :: xs) ∧
    dedupe (fun r : AllergySummary => r.text)
        [⟨"penicillin"⟩, ⟨"penicillin"⟩, ⟨"latex"⟩]
      = [⟨"penicillin"⟩, ⟨"latex"⟩] := by
  intro α κ inst key x xs
  exact ⟨rfl, dedupe_cons_eq key x xs, dedupeLoop_sublist key (x :: xs) [],
    by decide⟩

/-- C10 counterexample: the Epic allergy summarizer raises an
AttributeError (modeled as an error value) on a resource whose coding
array has a null first element, because its `coding[0].get` is not guarded
the way the Cerner variant is. -/
theorem C10_counterexample :
    epicSummarizeAllergy ⟨some ⟨none, some [none]⟩, none⟩
      = Except.error "AttributeError: NoneType object has no attribute get" := rfl

/-- C10 (amended): the Cerner allergy summarizer and the condition and
medication summarizers of both services are total and always return a
non-empty label, falling back to the fixed placeholders (also for empty
dictionaries and empty-string candidates); the Epic allergy summarizer
also returns a non-empty label whenever it returns at all, but raises on a
null first coding element. -/
theorem C10_summarizer_fallbacks :
    (∀ ai : AllergyRes, (cernerSummarizeAllergy ai).text ≠ "") ∧
    (∀ c : ConditionRes, (summarizeCondition c).text ≠ "") ∧
    (∀ m : MedReqRes, (cernerSummarizeMedication m).name ≠ "") ∧
    (∀ m : MedStmtRes, (epicSummarizeMedication m).name ≠ "") ∧
    (∀ (ai : AllergyRes) (s : AllergySummary),
      epicSummarizeAllergy ai = Except.ok s → s.text ≠ "") ∧
    (cernerSummarizeAllergy ⟨none, none⟩).text
      = "Allergy/Intolerance (unspecified)" ∧
    (summarizeCondition ⟨none⟩).text = "Condition (unspecified)" ∧
    (cernerSummarizeMedication ⟨none, none⟩).name = "Medication (unspecified)" ∧
    (epicSummarizeMedication ⟨none, none⟩).name = "Medication (unspecified)" := by
  refine ⟨?_, ?_, ?_, ?_, ?_, rfl, rfl, rfl, rfl⟩
  · intro ai
    exact pyOrStr_ne_empty _ _ (pyOrStr_ne_empty _ _ (pyOrStr_ne_empty _ _ (by decide)))
  · intro c
    exact pyOrStr_ne_empty _ _ (by decide)
  · intro m
    exact pyOrStr_ne_empty _ _ (by decide)
  · intro m
    exact pyOrStr_ne_empty _ _ (by decide)
  · intro ai s h
    unfold epicSummarizeAllergy at h
    dsimp only at h
    split at h
    · exact absurd h (by simp)
    · exact absurd h (by simp)
    · injection h with h1
      rw [← h1]
      exact pyOrStr_ne_empty _ _ (pyOrStr_ne_empty _ _ (pyOrStr_ne_empty _ _ (by decide)))

/-- C10 witness: the no-raise branch of the Epic allergy summarizer,
exercised at a concrete resource. -/
theorem C10_witness : (⟨"peanut"⟩ : AllergySummary).text ≠ "" :=
  C10_summarizer_fallbacks.2.2.2.2.1 ⟨some ⟨some "peanut", none⟩, none⟩
    ⟨"peanut"⟩ rfl

/-- C1: when a cached access token exists (truthy) with a truthy expiry,
`force` is false, and the clock is still below the expiry minus the safety
margin (15 seconds, at least the required 10), the Cerner token operation
returns the cached token unchanged, leaves the cache untouched, and makes
no network request; consequently a second such call within the margin also
makes none, so two calls cause at most one (here zero) network calls. The
Epic token operation keeps no cache at all, so the claim's precondition of
an existing cached token never holds there. -/
theorem C1_token_reuse (cfg : CernerConfig) (cache : TokenCache)
    (now nowAfter : Int) (server : ServerReply) (t : String) (e : Int)
    (h1 : cache.access_token = some t) (h2 : t ≠ "")
    (h3 : cache.token_exp = some e) (h4 : e ≠ 0)
    (h5 : now < e - tokenSafetyMargin) :
    tokenSafetyMargin ≥ 10 ∧
    (cernerGetAccessToken cfg cache false now nowAfter server).result
      = Except.ok ⟨t, some "Bearer", max 0 (e - now), some cfg.scope⟩ ∧
    (cernerGetAccessToken cfg cache false now nowAfter server).cache = cache ∧
    (cernerGetAccessToken cfg cache false now nowAfter server).networkCalls = 0 ∧
    (∀ (now2 nowAfter2 : Int) (server2 : ServerReply),
      now2 < e - tokenSafetyMargin →
      (cernerGetAccessToken cfg
          (cernerGetAccessToken cfg cache false now nowAfter server).cache
          false now2 nowAfter2 server2).networkCalls
        + (cernerGetAccessToken cfg cache false now nowAfter server).networkCalls
        ≤ 1) := by
  have hfast : tokenFastPathOk cache false now := by
    refine ⟨by simp [pyTruthyS, h1, h2], by simp [pyTruthyI, h3, h4], rfl, ?_⟩
    rw [h3]
    exact h5
  have hout : cernerGetAccessToken cfg cache false now nowAfter server
      = { result := Except.ok ⟨cache.access_token.getD "", some "Bearer",
            max 0 (cache.token_exp.getD 0 - now), some cfg.scope⟩,
          cache := cache, networkCalls := 0 } := by
    unfold cernerGetAccessToken
    rw [if_pos hfast]
  refine ⟨by norm_num [tokenSafetyMargin], ?_, ?_, ?_, ?_⟩
  · rw [hout]; simp [h1, h3]
  · rw [hout]
  · rw [hout]
  · intro now2 nowAfter2 server2 hlt
    have hfast2 : tokenFastPathOk cache false now2 := by
      refine ⟨by simp [pyTruthyS, h1, h2], by simp [pyTruthyI, h3, h4], rfl, ?_⟩
      rw [h3]
      exact hlt
    rw [hout]
    have : cernerGetAccessToken cfg cache false now2 nowAfter2 server2
        = { result := Except.ok ⟨cache.access_token.getD "", some "Bearer",
              max 0 (cache.token_exp.getD 0 - now2), some cfg.scope⟩,
            cache := cache, networkCalls := 0 } := by
      unfold cernerGetAccessToken
      rw [if_pos hfast2]
    rw [this]
    norm_num

/-- C1 witness: a concrete cached token reused without a network call. -/
theorem C1_witness :
    (cernerGetAccessToken
        ⟨"cid", "https://token", "system/Patient.read", "private_key_jwt",
         none, none, "RS384"⟩
        ⟨some "cached-tok", some 1000⟩ false 0 0
        (ServerReply.okJson none 0)).networkCalls = 0 :=
  (C1_token_reuse
    ⟨"cid", "https://token", "system/Patient.read", "private_key_jwt",
     none, none, "RS384"⟩
    ⟨some "cached-tok", some 1000⟩ 0 0 (ServerReply.okJson none 0)
    "cached-tok" 1000 rfl (by decide) rfl (by decide) (by decide)).2.2.2.1

/-- An Observation like the Glucose scenario but with a non-null issued
string `isoparse` cannot parse. -/
def badIssuedObs : ObsRes :=
  ⟨none, some ⟨some "Glucose", none⟩, some ⟨some 95, some "mg/dL", none⟩,
   some "not-a-date"⟩

/-- The summary the Glucose scenario normalizes to in the Cerner service. -/
def glucoseSummaryC : ObsSummaryC :=
  ⟨some "Glucose", some 95, some "mg/dL", some "03/01/2024",
   "Glucose 95 mg/dL 03/01/2024"⟩

/-- C5 (code bug evaluation): on a non-null but unparseable issued string
the observation summarizer raises the uncaught ValueError (the except
clause catches only ParserError/TypeError, though its comment says the
original string should be kept), aborting the whole snapshot in both
services, so the claim's retention clause fails there. The claim's
remaining content holds: normalizing a null-issued resource yields a
null-issued summary, every record of a successfully produced observations
sequence has a non-null issued, the sequence is a sublist of the summaries
(original relative positions), a summary with a non-null issued and a
collision-free text is retained, and the parseable scenario input is
retained. -/
theorem C5_unparseable_issued_crash :
    cernerSummarizeObservation badIssuedObs = Except.error isoparseValueError ∧
    epicObsText (epicSummarizeObservation badIssuedObs) = none ∧
    cernerSnapshotCore "p1" [] [badIssuedObs] [] [] []
      = Except.error isoparseValueError ∧
    epicSnapshotCore "p1" [] [badIssuedObs] [] [] []
      = Except.error isoparseValueError ∧
    cernerObsPipeline [glucoseObs] = Except.ok [glucoseSummaryC] ∧
    (∀ (r : ObsRes) (s : ObsSummaryC), r.issued = none →
      cernerSummarizeObservation r = Except.ok s → s.issued = none) ∧
    (∀ (r : ObsRes) (s : ObsSummaryE), r.issued = none →
      epicSummarizeObservation r = Except.ok s → s.issued = none) ∧
    (∀ (raws : List ObsRes) (os : List ObsSummaryC),
      cernerObsPipeline raws = Except.ok os → ∀ o ∈ os, o.issued ≠ none) ∧
    (∀ (raws : List ObsRes) (os : List ObsSummaryE),
      epicObsPipeline raws = Except.ok os → ∀ o ∈ os, o.issued ≠ none) ∧
    (∀ (summaries : List ObsSummaryC),
      (obsDedupLoop (fun o : ObsSummaryC => o.text) (fun o => o.issued)
        summaries []).Sublist summaries) ∧
    (∀ (summaries : List ObsSummaryC) (o : ObsSummaryC), o ∈ summaries →
      o.issued ≠ none → (∀ p ∈ summaries, p.text = o.text → p = o) →
      o ∈ obsDedupLoop (fun o : ObsSummaryC => o.text) (fun o => o.issued)
        summaries []) := by
  refine ⟨rfl, rfl, rfl, rfl, rfl, ?_, ?_, ?_, ?_, ?_, ?_⟩
  · intro r s hr hok
    unfold cernerSummarizeObservation at hok
    rw [hr] at hok
    simp only [reformatIssued] at hok
    injection hok with h1
    rw [← h1]
  · intro r s hr hok
    unfold epicSummarizeObservation at hok
    rw [hr] at hok
    simp only [reformatIssued] at hok
    injection hok with h1
    rw [← h1]
  · intro raws os h
    unfold cernerObsPipeline at h
    cases hm : raws.mapM cernerSummarizeObservation with
    | error e => rw [hm] at h; exact absurd h (by simp [Except.map])
    | ok summaries =>
      rw [hm] at h
      simp only [Except.map] at h
      injection h with h1
      rw [← h1]
      intro o ho
      exact obsDedupLoop_issued _ _ _ [] o ho
  · intro raws os h
    unfold epicObsPipeline at h
    cases hm : raws.mapM epicSummarizeObservation with
    | error e => rw [hm] at h; exact absurd h (by simp [Except.map])
    | ok summaries =>
      rw [hm] at h
      simp only [Except.map] at h
      injection h with h1
      rw [← h1]
      intro o ho
      exact obsDedupLoop_issued _ _ _ [] o ho
  · intro summaries
    exact obsDedupLoop_sublist _ _ _ []
  · intro summaries o ho hiss huniq
    exact obsDedupLoop_keeps _ _ _ [] o ho hiss (by simp) huniq

/-- C5 witness: the null-preservation and ok-pipeline clauses exercised at
concrete inputs. -/
theorem C5_witness :
    (⟨some "Glucose", none, none, none, "Glucose"⟩ : ObsSummaryC).issued = none :=
  C5_unparseable_issued_crash.2.2.2.2.2.1
    ⟨none, some ⟨some "Glucose", none⟩, none, none⟩
    ⟨some "Glucose", none, none, none, "Glucose"⟩ rfl rfl

/-- C6 counterexample: a snapshot call whose Patient query returned zero
results CAN raise: through the uncaught observation ValueError in either
service, and through the Epic allergy AttributeError. -/
theorem C6_counterexample :
    cernerSnapshotCore "p1" [] [badIssuedObs] [] [] []
      = Except.error isoparseValueError ∧
    epicSnapshotCore "p1" [] [] [⟨some ⟨none, some [none]⟩, none⟩] [] []
      = Except.error "AttributeError: NoneType object has no attribute get" :=
  ⟨rfl, rfl⟩

/-- C6 (amended): zero Patient results is itself never an error — whenever
the category pipelines succeed (observation normalization can raise on an
unparseable issued string, and Epic allergy normalization on a null first
coding element), the snapshot returns with an absent patient and all four
categories fetched and included, computed exactly as they would be for any
other patient fetch result. -/
theorem C6_patient_zero_results : ∀ (pid : String) (obsRaw : List ObsRes)
    (aRaw : List AllergyRes) (cRaw : List ConditionRes)
    (mRawC : List MedReqRes) (mRawE : List MedStmtRes),
    (∀ os : List ObsSummaryC, cernerObsPipeline obsRaw = Except.ok os →
      cernerSnapshotCore pid [] obsRaw aRaw cRaw mRawC
        = Except.ok ⟨none, os, cernerAllergyPipeline aRaw,
            cernerConditionPipeline cRaw, cernerMedPipeline mRawC⟩) ∧
    (∀ (pats : List PatientRes) (s : CernerSnapshot),
      cernerSnapshotCore pid pats obsRaw aRaw cRaw mRawC = Except.ok s →
      cernerObsPipeline obsRaw = Except.ok s.observations ∧
      s.allergies = cernerAllergyPipeline aRaw ∧
      s.conditions = cernerConditionPipeline cRaw ∧
      s.medications = cernerMedPipeline mRawC) ∧
    (∀ (os : List ObsSummaryE) (al : List AllergySummary),
      epicObsPipeline obsRaw = Except.ok os →
      epicAllergyPipeline aRaw = Except.ok al →
      epicSnapshotCore pid [] obsRaw aRaw cRaw mRawE
        = Except.ok ⟨none, os, al, epicConditionPipeline cRaw,
            epicMedPipeline mRawE⟩) := by
  intro pid obsRaw aRaw cRaw mRawC mRawE
  refine ⟨?_, ?_, ?_⟩
  · intro os h
    unfold cernerSnapshotCore
    dsimp only [patientSummaryOf]
    rw [h]
  · intro pats s h
    unfold cernerSnapshotCore at h
    split at h
    · exact absurd h (by simp)
    · split at h
      · exact absurd h (by simp)
      · rename_i os hos
        injection h with h1
        rw [← h1]
        exact ⟨hos, rfl, rfl, rfl⟩
  · intro os al hos hal
    unfold epicSnapshotCore
    dsimp only [patientSummaryOf]
    rw [hos, hal]

/-- C6 witness: empty fetch results everywhere give the empty snapshot
with an absent patient, without an error. -/
theorem C6_witness :
    epicSnapshotCore "p1" [] [] [] [] []
      = Except.ok ⟨none, [], [], [], []⟩ :=
  (C6_patient_zero_results "p1" [] [] [] [] []).2.2 [] [] rfl rfl

/-- C7: whenever the configured scope is empty after normalization, the
Cerner token operation makes no network call; and on any path that would
reach the token endpoint (the fast path not taken), it fails with the
configuration error instead. -/
theorem C7_empty_scope_no_network (cfg : CernerConfig) (cache : TokenCache)
    (force : Bool) (now nowAfter : Int) (server : ServerReply)
    (hscope : normalize_scope cfg.scope = "") :
    (cernerGetAccessToken cfg cache force now nowAfter server).networkCalls = 0 ∧
    (¬ tokenFastPathOk cache force now →
      (cernerGetAccessToken cfg cache force now nowAfter server).result
        = Except.error
            "Refusing to request token with empty scope (after normalization).") := by
  unfold cernerGetAccessToken
  by_cases hfast : tokenFastPathOk cache force now
  · rw [if_pos hfast]
    exact ⟨rfl, fun hc => absurd hfast hc⟩
  · rw [if_neg hfast, if_pos hscope]
    exact ⟨rfl, fun _ => rfl⟩

/-- C7 witness: an empty configured scope fails before any network call,
at a concrete configuration with no cached token. -/
theorem C7_witness :
    (cernerGetAccessToken
        ⟨"cid", "https://token", "", "private_key_jwt", none, none, "RS384"⟩
        ⟨none, none⟩ false 0 0 (ServerReply.okJson (some "t") 60)).result
      = Except.error
          "Refusing to request token with empty scope (after normalization)." :=
  (C7_empty_scope_no_network
    ⟨"cid", "https://token", "", "private_key_jwt", none, none, "RS384"⟩
    ⟨none, none⟩ false 0 0 (ServerReply.okJson (some "t") 60) rfl).2 (by decide)

end Dr2ndOp
